import Mathlib

/-!
Verification of the resilient multi-provider search aggregation engine
(`src/Agent/tools/_search_engine.py`).

The Python module is embedded shallowly:

* Scores are `float` in the source; every use of a score in the engine is an
  order comparison or an exact copy, so scores are embedded as exact rationals.
* `datetime` values are embedded as whole seconds (`Nat`).  Python
  `timedelta.seconds` is the seconds component of the normalized delta, i.e.
  `(now - before) % 86400` for a non-negative whole-second delta.
* Python `dict` (insertion ordered) is embedded as an association list whose
  in-place updates keep the position of the updated key.
* The two provider workers run in threads and their settled outcomes (the
  values collected at `future.result(timeout=...)`, including the synthesized
  timeout/failure records of lines 569-584) are passed to the orchestrator
  model as explicit `ProviderData` arguments; the wall-clock behaviour of the
  collection loop is modelled separately by `collectStep`/`collectFinish`.
* The md5 cache key of `SearchCache._make_key` is embedded as the hashed
  string itself: equal inputs give equal keys either way, and no claim
  depends on distinct inputs colliding.
* All raised exceptions of the providers are already converted to data by the
  source; the embedding is total, so "never raises" facts are stated as the
  shape of the returned structure.
-/

/-- `SearchType` enum of the source (line 31). -/
inductive SearchType where
  | general
  | news
  | images
  | videos
  | academic
deriving DecidableEq, Repr

/-- The `.value` string of a `SearchType` member. -/
def SearchType.val : SearchType → String
  | .general => "general"
  | .news => "news"
  | .images => "images"
  | .videos => "videos"
  | .academic => "academic"

/-- `ProviderStatus` enum of the source (line 40). -/
inductive ProviderStatus where
  | ok
  | failed
  | timeout
  | disabled
deriving DecidableEq, Repr

/-- `SearchResult` TypedDict (line 48); `score` is embedded as an exact
rational, `published` as an optional string. -/
structure SearchResult where
  title : String
  url : String
  snippet : String
  score : ℚ
  source_engine : String
  published : Option String
  rank : Nat
deriving DecidableEq, Repr

/-- The dedup key of `_deduplicate_results` line 477:
`item.get("url", "").rstrip("/").lower()`.  `rstrip("/")` removes every
trailing slash; `lower()` is ASCII lowercasing here (URLs in this engine). -/
def normUrl (s : String) : String :=
  String.mk (((s.data.reverse.dropWhile (fun c => c = '/')).reverse).map Char.toLower)

/-- Merging a duplicate `item` into the already stored `existing` entry
(lines 481-489): only a strictly higher score triggers any change; then the
score is adopted, the source tags are concatenated and an empty snippet is
backfilled from the duplicate. -/
def mergeInto (existing item : SearchResult) : SearchResult :=
  if item.score > existing.score then
    { existing with
        score := item.score,
        source_engine := existing.source_engine ++ "+" ++ item.source_engine,
        snippet :=
          if existing.snippet = "" ∧ item.snippet ≠ "" then item.snippet
          else existing.snippet }
  else existing

/-- Whether the insertion-ordered dict already holds `key`. -/
def hasKey (seen : List (String × SearchResult)) (key : String) : Bool :=
  seen.any (fun p => p.1 = key)

/-- `seen_urls[url]` update / insert, keeping dict insertion order. -/
def insertResult (seen : List (String × SearchResult)) (key : String)
    (item : SearchResult) : List (String × SearchResult) :=
  if hasKey seen key then
    seen.map (fun p => if p.1 = key then (p.1, mergeInto p.2 item) else p)
  else
    seen ++ [(key, item)]

/-- The loop of `_deduplicate_results` (lines 476-491): items whose
normalized URL is empty are skipped (`if not url: continue`). -/
def dedupGo (seen : List (String × SearchResult)) :
    List SearchResult → List (String × SearchResult)
  | [] => seen
  | item :: rest =>
    let key := normUrl item.url
    if key = "" then dedupGo seen rest
    else dedupGo (insertResult seen key item) rest

/-- `_deduplicate_results` (line 469): returns `list(seen_urls.values())`. -/
def _deduplicate_results (results : List SearchResult) : List SearchResult :=
  (dedupGo [] results).map (fun p => p.2)

/-- Stable insertion of `x` after every already placed element of score
not below the score of `x`. -/
def insertDesc (x : SearchResult) : List SearchResult → List SearchResult
  | [] => [x]
  | y :: ys => if y.score ≥ x.score then y :: insertDesc x ys else x :: y :: ys

/-- `list.sort(key=lambda x: x.get("score", 0), reverse=True)`: a stable sort
by score descending (Python sort is stable). -/
def sortByScoreDesc (l : List SearchResult) : List SearchResult :=
  l.foldl (fun acc x => insertDesc x acc) []

/-- The interleaving while-loop of `_rank_results` (lines 448-460): one from
the tavily group then one from the duckduckgo group, per iteration. -/
def interleave : List SearchResult → List SearchResult → List SearchResult
  | [], ds => ds
  | t :: ts, [] => t :: interleave ts []
  | t :: ts, d :: ds => t :: d :: interleave ts ds

/-- The re-rank loop of `_rank_results` (lines 463-464): 1-based positions. -/
def assignRanks (i : Nat) : List SearchResult → List SearchResult
  | [] => []
  | r :: rest => { r with rank := i } :: assignRanks (i + 1) rest

/-- `_rank_results` (line 427): groups by `source_engine == "tavily"` and
`source_engine == "duckduckgo"` (any other tag is dropped), sorts each group
by score descending, interleaves and re-ranks. -/
def _rank_results (results : List SearchResult) : List SearchResult :=
  match results with
  | [] => []
  | _ =>
    let tavily_results := results.filter (fun r => r.source_engine = "tavily")
    let ddg_results := results.filter (fun r => r.source_engine = "duckduckgo")
    assignRanks 1 (interleave (sortByScoreDesc tavily_results) (sortByScoreDesc ddg_results))

/-- The `state` string of a `CircuitBreaker` ("closed", "open", "half-open"). -/
inductive BState where
  | closed
  | opened
  | halfOpen
deriving DecidableEq, Repr

/-- `CircuitBreaker` (line 144); `last_failure_time` in whole seconds. -/
structure CircuitBreaker where
  failure_count : Nat
  failure_threshold : Nat
  timeout_seconds : Nat
  last_failure_time : Option Nat
  state : BState
deriving DecidableEq, Repr

/-- The breaker constructed by `CircuitBreaker()` (defaults 5 / 60s). -/
def CircuitBreaker.fresh : CircuitBreaker :=
  ⟨0, 5, 60, none, BState.closed⟩

/-- `CircuitBreaker.can_execute` (lines 154-161).  Returns the decision and
the breaker after the call (the open-to-half-open transition mutates it).
`(datetime.now() - last_failure_time).seconds` is the seconds component of
the delta, i.e. `(now - t) % 86400`. -/
def CircuitBreaker.can_execute (b : CircuitBreaker) (now : Nat) :
    Bool × CircuitBreaker :=
  if b.state = BState.opened then
    match b.last_failure_time with
    | some t =>
      if (now - t) % 86400 > b.timeout_seconds then
        (true, { b with state := BState.halfOpen })
      else (false, b)
    | none => (false, b)
  else (true, b)

/-- `CircuitBreaker.record_success` (lines 163-166). -/
def CircuitBreaker.record_success (b : CircuitBreaker) : CircuitBreaker :=
  { b with failure_count := 0, state := BState.closed }

/-- `CircuitBreaker.record_failure` (lines 168-174). -/
def CircuitBreaker.record_failure (b : CircuitBreaker) (now : Nat) : CircuitBreaker :=
  let fc := b.failure_count + 1
  { b with
      failure_count := fc,
      last_failure_time := some now,
      state := if fc ≥ b.failure_threshold then BState.opened else b.state }

/-- `n` consecutive `record_failure` events at time `now`. -/
def recordFailureIter (n : Nat) (now : Nat) (b : CircuitBreaker) : CircuitBreaker :=
  match n with
  | 0 => b
  | n + 1 => (recordFailureIter n now b).record_failure now

/-- One raw item of the Tavily response (`response["results"][i]`), after the
defensive `.get` defaults of lines 303-306. -/
structure TavilyRaw where
  title : String
  url : String
  content : String
  score : ℚ
deriving DecidableEq, Repr

/-- What `TavilyClient(...).search(**params)` does on one call: either a
response body or a raised exception message. -/
inductive TavilyTransport where
  | ok (results : List TavilyRaw) (answer : String)
  | exn (msg : String)
deriving DecidableEq, Repr

/-- The per-provider payload dict returned by `_search_tavily` /
`_search_duckduckgo` and by the timeout/exception arms of the collection
loop (lines 571-584).  The absent `answer` key of failure payloads is the
empty string (both are falsy where the payload is consumed). -/
structure ProviderData where
  results : List SearchResult
  answer : String
  error : Option String
  status : ProviderStatus
  search_time_ms : Option ℚ
deriving DecidableEq, Repr

/-- Result of one modelled provider call: the payload, the breaker after the
call, and how many times the underlying transport was invoked. -/
structure ProviderCallOut where
  data : ProviderData
  breaker : CircuitBreaker
  transportCalls : Nat
deriving DecidableEq, Repr

/-- The result-normalization loop of `_search_tavily` (lines 300-310):
Tavily scores are boosted by 1.2, ranks are 1-based positions. -/
def tavilyConvert (i : Nat) : List TavilyRaw → List SearchResult
  | [] => []
  | raw :: rest =>
    { title := raw.title, url := raw.url, snippet := raw.content,
      score := raw.score * (6 / 5), source_engine := "tavily",
      published := none, rank := i + 1 } :: tavilyConvert (i + 1) rest

/-- `_search_tavily` (lines 254-341).  `importOk` is whether
`from tavily import TavilyClient` succeeds; `apiKey` is
`config.tavily_api_key` / the environment key, with the empty string falsy
(`if not api_key`); `transport` is the behaviour of the one client call.
The elapsed wall time of a successful call is modelled as 0 ms. -/
def _search_tavily (b : CircuitBreaker) (now : Nat) (importOk : Bool)
    (apiKey : Option String) (transport : TavilyTransport) : ProviderCallOut :=
  let gate := b.can_execute now
  if gate.1 = false then
    ⟨⟨[], "", some "Circuit breaker open - too many recent failures",
      ProviderStatus.disabled, none⟩, gate.2, 0⟩
  else if importOk = false then
    ⟨⟨[], "", some "tavily-python not installed",
      ProviderStatus.failed, none⟩, gate.2, 0⟩
  else if apiKey.getD "" = "" then
    ⟨⟨[], "", some "TAVILY_API_KEY not set",
      ProviderStatus.disabled, none⟩, gate.2, 0⟩
  else
    match transport with
    | TavilyTransport.ok raws ans =>
      ⟨⟨tavilyConvert 0 raws, ans, none, ProviderStatus.ok, some 0⟩,
        gate.2.record_success, 1⟩
    | TavilyTransport.exn msg =>
      ⟨⟨[], "", some msg, ProviderStatus.failed, none⟩,
        gate.2.record_failure now, 1⟩

/-- The breaker after `n` calls to `_search_tavily` with fixed inputs. -/
def tavilyIterBreaker (now : Nat) (importOk : Bool) (apiKey : Option String)
    (transport : TavilyTransport) (n : Nat) (b : CircuitBreaker) : CircuitBreaker :=
  match n with
  | 0 => b
  | n + 1 =>
    (_search_tavily (tavilyIterBreaker now importOk apiKey transport n b)
      now importOk apiKey transport).breaker

/-- `ProviderInfo` TypedDict (line 59); the stored `status.value` string is
kept as the enum member. -/
structure ProviderInfo where
  status : ProviderStatus
  results_count : Nat
  error : Option String
  response_time_ms : Option ℚ
deriving DecidableEq, Repr

/-- `SearchResponse` TypedDict (line 67); `timestamp` is the whole-second
clock value, `errorKey` is the extra `"error"` key of the
no-providers-enabled response (line 554). -/
structure SearchResponse where
  query : String
  search_type : String
  results : List SearchResult
  total_found : Nat
  answer : Option String
  providers : List (String × ProviderInfo)
  timestamp : Nat
  cached : Bool
  errorKey : Option String
deriving DecidableEq, Repr

/-- `CacheEntry` (line 100): the stored response and its expiry time. -/
structure CacheEntryM where
  data : SearchResponse
  expires : Nat
deriving DecidableEq, Repr

/-- `SearchCache._make_key` (line 112): md5 of `f"{query}:{search_type}:{num_results}"`,
embedded as the hashed string itself (equal inputs, equal keys). -/
def makeKey (query : String) (search_type : String) (num_results : Int) : String :=
  query ++ ":" ++ search_type ++ ":" ++ toString num_results

/-- `self._cache.get(key)` over the insertion-ordered dict. -/
def cacheFind : List (String × CacheEntryM) → String → Option CacheEntryM
  | [], _ => none
  | (k, e) :: rest, key => if k = key then some e else cacheFind rest key

/-- `del self._cache[key]`. -/
def cacheRemove : List (String × CacheEntryM) → String → List (String × CacheEntryM)
  | [], _ => []
  | (k, e) :: rest, key => if k = key then rest else (k, e) :: cacheRemove rest key

/-- `self._cache[key] = entry`: replace in place or append. -/
def cacheStore : List (String × CacheEntryM) → String → CacheEntryM →
    List (String × CacheEntryM)
  | [], key, e => [(key, e)]
  | (k, e0) :: rest, key, e =>
    if k = key then (key, e) :: rest else (k, e0) :: cacheStore rest key e

/-- `SearchCache.get` (lines 117-127): a live entry is returned, an expired
entry is deleted and reported as a miss. -/
def cacheGet (now : Nat) (cache : List (String × CacheEntryM)) (key : String) :
    Option SearchResponse × List (String × CacheEntryM) :=
  match cacheFind cache key with
  | some e => if e.expires > now then (some e.data, cache) else (none, cacheRemove cache key)
  | none => (none, cache)

/-- `SearchCache.set` (lines 129-133). -/
def cacheSet (now ttl : Nat) (cache : List (String × CacheEntryM)) (key : String)
    (resp : SearchResponse) : List (String × CacheEntryM) :=
  cacheStore cache key ⟨resp, now + ttl⟩

/-- `cached["cached"] = True` on a hit (line 534) mutates the dict object
still stored in the cache; the stored entry is updated accordingly. -/
def cacheMark : List (String × CacheEntryM) → String → List (String × CacheEntryM)
  | [], _ => []
  | (k, e) :: rest, key =>
    if k = key then (k, ⟨{ e.data with cached := true }, e.expires⟩) :: rest
    else (k, e) :: cacheMark rest key

/-- `SearchConfig` (line 79); only the fields `search_dual` reads. -/
structure SearchConfigM where
  timeout_seconds : Nat
  enable_cache : Bool
  cache_ttl_seconds : Nat
  enable_tavily : Bool
  enable_duckduckgo : Bool
deriving DecidableEq, Repr

/-- `SearchConfig()` defaults (lines 82-87). -/
def defaultConfig : SearchConfigM :=
  ⟨15, true, 300, true, true⟩

/-- Accumulator of the result-processing loop of `search_dual` (lines 586-611):
collected results, provider infos, and the direct answer. -/
structure ProcessAcc where
  all : List SearchResult
  infos : List (String × ProviderInfo)
  answer : Option String
deriving DecidableEq, Repr

/-- One iteration of the loop over `results_map.items()` (lines 591-611). -/
def processOne (acc : ProcessAcc) (nd : String × ProviderData) : ProcessAcc :=
  let name := nd.1
  let data := nd.2
  if data.status = ProviderStatus.ok then
    { all := acc.all ++ data.results,
      infos := acc.infos ++
        [(name, ⟨data.status, data.results.length, none, data.search_time_ms⟩)],
      answer :=
        if name = "tavily" ∧ data.answer ≠ "" then some data.answer else acc.answer }
  else
    { all := acc.all,
      infos := acc.infos ++ [(name, ⟨data.status, 0, data.error, none⟩)],
      answer := acc.answer }

/-- The whole processing loop, in `results_map` insertion order. -/
def processOutcomes (outs : List (String × ProviderData)) : ProcessAcc :=
  outs.foldl processOne ⟨[], [], none⟩

/-- What one `search_dual` call yields in the embedding: the returned
response, the cache after the call, and how many provider workers were
dispatched. -/
structure DualResult where
  response : SearchResponse
  cacheOut : List (String × CacheEntryM)
  providerCalls : Nat
deriving DecidableEq, Repr

/-- The cache-miss body of `search_dual` (lines 537-635): build the provider
list from the config flags, process the settled outcomes, deduplicate, rank,
build the response and store it unless the ranked list is empty. -/
def searchCore (now : Nat) (query : String) (search_type : SearchType)
    (cfg : SearchConfigM) (should_cache : Bool) (key : String)
    (c1 : List (String × CacheEntryM)) (tavilyData ddgData : ProviderData) : DualResult :=
  let providers :=
    (if cfg.enable_tavily then [("tavily", tavilyData)] else []) ++
    (if cfg.enable_duckduckgo then [("duckduckgo", ddgData)] else [])
  if providers = [] then
    ⟨⟨query, search_type.val, [], 0, none, [], now, false,
      some "No search providers enabled"⟩, c1, 0⟩
  else
    let acc := processOutcomes providers
    let ranked := _rank_results (_deduplicate_results acc.all)
    let resp : SearchResponse :=
      ⟨query, search_type.val, ranked, ranked.length, acc.answer, acc.infos,
        now, false, none⟩
    let c2 :=
      if should_cache ∧ ranked ≠ [] then cacheSet now cfg.cache_ttl_seconds c1 key resp
      else c1
    ⟨resp, c2, providers.length⟩

/-- `search_dual` (lines 496-635).  `tavilyData` / `ddgData` are the settled
per-provider payloads of the collection loop (the provider return value, or
the synthesized timeout / executor-failure payload of lines 569-584); no
value of `num_results` is validated anywhere in the function. -/
def search_dual (now : Nat) (cache : List (String × CacheEntryM)) (query : String)
    (num_results : Int) (search_type : SearchType) (cfg : SearchConfigM)
    (use_cache : Option Bool) (tavilyData ddgData : ProviderData) : DualResult :=
  let should_cache := use_cache.getD cfg.enable_cache
  let key := makeKey query search_type.val num_results
  let looked := if should_cache then cacheGet now cache key else (none, cache)
  match looked.1 with
  | some data => ⟨{ data with cached := true }, cacheMark looked.2 key, 0⟩
  | none =>
    searchCore now query search_type cfg should_cache key looked.2 tavilyData ddgData

/-- One step of the sequential collection loop (lines 565-576) under a
deterministic duration semantics: both workers start at time 0, worker
durations are `d`; `future.result(timeout=T)` entered at time `t` returns at
`max t d` when the worker finishes inside the wait, and raises the timeout
at `t + T` otherwise. -/
def collectStep (T t d : Nat) : Nat := if d ≤ t + T then max t d else t + T

/-- Time at which the collection loop has settled every provider. -/
def collectFinish (T : Nat) (ds : List Nat) : Nat :=
  ds.foldl (collectStep T) 0

/-- Which providers get the synthesized `Failed{timeout}` payload, one flag
per provider in collection order. -/
def collectTimedOut (T : Nat) (t : Nat) : List Nat → List Bool
  | [] => []
  | d :: rest =>
    if d ≤ t + T then false :: collectTimedOut T (max t d) rest
    else true :: collectTimedOut T (t + T) rest

/-! ### Helper lemmas about deduplication -/

theorem mergeInto_url (e i : SearchResult) : (mergeInto e i).url = e.url := by
  unfold mergeInto; split <;> rfl

theorem dedupGo_cons (seen : List (String × SearchResult)) (item : SearchResult)
    (rest : List SearchResult) :
    dedupGo seen (item :: rest) =
      if normUrl item.url = "" then dedupGo seen rest
      else dedupGo (insertResult seen (normUrl item.url) item) rest := rfl

theorem insertResult_invar (seen : List (String × SearchResult)) (key : String)
    (item : SearchResult)
    (hseen : ∀ q ∈ seen, normUrl q.2.url = q.1 ∧ q.1 ≠ "")
    (hkey : normUrl item.url = key) (hne : key ≠ "") :
    ∀ q ∈ insertResult seen key item, normUrl q.2.url = q.1 ∧ q.1 ≠ "" := by
  intro q hq
  unfold insertResult at hq
  by_cases h : hasKey seen key = true
  · simp only [h, if_true] at hq
    rcases List.mem_map.1 hq with ⟨p, hp, hpq⟩
    by_cases hk : p.1 = key
    · rw [if_pos hk] at hpq
      rcases hseen p hp with ⟨h1, h2⟩
      subst hpq
      exact ⟨by rw [mergeInto_url]; exact h1, h2⟩
    · rw [if_neg hk] at hpq
      subst hpq
      exact hseen p hp
  · simp only [h, if_false] at hq
    rcases List.mem_append.1 hq with hq | hq
    · exact hseen q hq
    · rcases List.mem_singleton.1 hq with rfl
      exact ⟨hkey, hne⟩

theorem dedupGo_invar (rs : List SearchResult) :
    ∀ seen, (∀ q ∈ seen, normUrl q.2.url = q.1 ∧ q.1 ≠ "") →
      ∀ q ∈ dedupGo seen rs, normUrl q.2.url = q.1 ∧ q.1 ≠ "" := by
  induction rs with
  | nil => intro seen hseen q hq; exact hseen q hq
  | cons item rest ih =>
    intro seen hseen q hq
    rw [dedupGo_cons] at hq
    by_cases h : normUrl item.url = ""
    · rw [if_pos h] at hq
      exact ih seen hseen q hq
    · rw [if_neg h] at hq
      exact ih _ (insertResult_invar seen _ item hseen rfl h) q hq

theorem dedupGo_filter (rs : List SearchResult) :
    ∀ seen, dedupGo seen (rs.filter (fun r => normUrl r.url != "")) = dedupGo seen rs := by
  induction rs with
  | nil => intro seen; rfl
  | cons item rest ih =>
    intro seen
    by_cases h : normUrl item.url = ""
    · have e1 : List.filter (fun r => normUrl r.url != "") (item :: rest) =
          List.filter (fun r => normUrl r.url != "") rest := by
        simp [List.filter_cons, h]
      have e2 : dedupGo seen (item :: rest) = dedupGo seen rest := by
        rw [dedupGo_cons, if_pos h]
      rw [e1, e2]; exact ih seen
    · have e1 : List.filter (fun r => normUrl r.url != "") (item :: rest) =
          item :: List.filter (fun r => normUrl r.url != "") rest := by
        simp [List.filter_cons, h]
      have e2 : dedupGo seen (item :: rest) =
          dedupGo (insertResult seen (normUrl item.url) item) rest := by
        rw [dedupGo_cons, if_neg h]
      have e3 : dedupGo seen (item :: List.filter (fun r => normUrl r.url != "") rest) =
          dedupGo (insertResult seen (normUrl item.url) item)
            (List.filter (fun r => normUrl r.url != "") rest) := by
        rw [dedupGo_cons, if_neg h]
      rw [e1, e3, e2]
      exact ih _

/-! ### C10 -/

/-- C10: any result whose URL normalizes to the empty string is silently
excluded by `_deduplicate_results`: the output is unchanged when such inputs
are removed beforehand, and no output entry has an empty normalized URL. -/
theorem dedup_excludes_empty_url (rs : List SearchResult) :
    _deduplicate_results rs =
      _deduplicate_results (rs.filter (fun r => normUrl r.url != "")) ∧
    ∀ r, r ∈ _deduplicate_results rs → normUrl r.url ≠ "" := by
  constructor
  · unfold _deduplicate_results
    rw [dedupGo_filter]
  · intro r hr
    unfold _deduplicate_results at hr
    rcases List.mem_map.1 hr with ⟨q, hq, rfl⟩
    rcases dedupGo_invar rs [] (by intro q hq; cases hq) q hq with ⟨h1, h2⟩
    rw [h1]; exact h2

def c10Bad : SearchResult :=
  ⟨"bad", "///", "s", 1, "tavily", none, 1⟩

def c10Good : SearchResult :=
  ⟨"good", "https://ok.com", "s", 1, "tavily", none, 1⟩

/-- C10, witnessed at a concrete input: a member of the dedup output has a
non-empty normalized URL. -/
theorem dedup_excludes_empty_url_witness :
    c10Good ∈ _deduplicate_results [c10Bad, c10Good] ∧ normUrl c10Good.url ≠ "" :=
  ⟨by decide, (dedup_excludes_empty_url [c10Bad, c10Good]).2 c10Good (by decide)⟩

/-! ### C1 -/

def c1Tav : SearchResult :=
  ⟨"A tavily", "https://x.com/a", "tavily snippet", 1, "tavily", none, 1⟩

def c1Ddg : SearchResult :=
  ⟨"A ddg", "https://x.com/a/", "ddg snippet", 2, "duckduckgo", none, 1⟩

/-- C1: with two providers returning the same normalized URL
(`https://x.com/a` and `https://x.com/a/`) and the later variant scoring
higher, `_deduplicate_results` merges them into one entry tagged
`"tavily+duckduckgo"` carrying the higher score, but `_rank_results` keeps
only entries tagged exactly `"tavily"` or `"duckduckgo"`, so the final
merged output of dedup followed by ranking contains zero entries for that
URL instead of the claimed exactly one. -/
theorem c1_merged_entry_dropped :
    _deduplicate_results [c1Tav, c1Ddg] =
      [{ c1Tav with score := 2, source_engine := "tavily+duckduckgo" }] ∧
    _rank_results (_deduplicate_results [c1Tav, c1Ddg]) = [] := by decide

/-! ### C5 -/

def c5High : SearchResult :=
  ⟨"A high", "https://x.com/a", "", 2, "tavily", none, 1⟩

def c5Low : SearchResult :=
  ⟨"A low", "https://x.com/a/", "low snippet", 1, "duckduckgo", none, 1⟩

/-- C5, counterexample: two providers contribute the same normalized URL,
the kept entry has the empty snippet and the duplicate has one, yet the
dedup output is the first entry unchanged: its `source_engine` is not the
concatenation of the contributing providers and its snippet is not
backfilled, because the duplicate scored lower. -/
theorem dedup_no_merge_on_lower_score_cex :
    _deduplicate_results [c5High, c5Low] = [c5High] ∧
    c5High.source_engine = "tavily" ∧ c5High.snippet = "" ∧
    c5Low.snippet ≠ "" ∧ normUrl c5High.url = normUrl c5Low.url := by decide

/-- C5 as amended: for two results sharing a non-empty normalized URL,
deduplication keeps one entry holding the higher of the two scores, but the
provider-concatenation tag and the snippet backfill only happen when the
later duplicate scores strictly higher; otherwise the first entry is kept
unchanged, and the kept `url` (like every other untouched field) is always
the first entry's. -/
theorem dedup_pair_merge (a b : SearchResult)
    (h1 : normUrl a.url = normUrl b.url) (h2 : normUrl a.url ≠ "") :
    (_deduplicate_results [a, b]).map
        (fun r => (r.url, r.score, r.source_engine, r.snippet)) =
      [(a.url,
        if b.score > a.score then b.score else a.score,
        if b.score > a.score then a.source_engine ++ "+" ++ b.source_engine
          else a.source_engine,
        if b.score > a.score ∧ a.snippet = "" ∧ b.snippet ≠ "" then b.snippet
          else a.snippet)] := by
  have hb : ¬ normUrl b.url = "" := by rw [← h1]; exact h2
  have e0 : _deduplicate_results [a, b] = [mergeInto a b] := by
    unfold _deduplicate_results
    rw [dedupGo_cons, if_neg h2, dedupGo_cons, if_neg hb]
    unfold dedupGo
    have ins1 : insertResult [] (normUrl a.url) a = [(normUrl a.url, a)] := by
      unfold insertResult hasKey; simp
    rw [ins1]
    have hkey : hasKey [(normUrl a.url, a)] (normUrl b.url) = true := by
      unfold hasKey; simp [h1]
    unfold insertResult
    rw [hkey, if_pos rfl]
    simp [← h1]
  rw [e0]
  by_cases hba : b.score > a.score
  · by_cases hsn : a.snippet = "" ∧ b.snippet ≠ ""
    · simp [mergeInto, hba, hsn]
    · simp only [mergeInto, if_pos hba, List.map_cons, List.map_nil]
      simp [hba, hsn]
  · simp [mergeInto, hba]

def c5WitA : SearchResult :=
  ⟨"A first", "https://y.com/b", "", 1, "tavily", none, 1⟩

def c5WitB : SearchResult :=
  ⟨"B later", "https://y.com/b/", "later snippet", 3, "duckduckgo", none, 1⟩

/-- C5 amended, witnessed: a later duplicate with strictly higher score does
get tagged and backfilled. -/
theorem dedup_pair_merge_witness :
    (_deduplicate_results [c5WitA, c5WitB]).map
        (fun r => (r.url, r.score, r.source_engine, r.snippet)) =
      [(c5WitA.url,
        if c5WitB.score > c5WitA.score then c5WitB.score else c5WitA.score,
        if c5WitB.score > c5WitA.score then
          c5WitA.source_engine ++ "+" ++ c5WitB.source_engine
          else c5WitA.source_engine,
        if c5WitB.score > c5WitA.score ∧ c5WitA.snippet = "" ∧
            c5WitB.snippet ≠ "" then c5WitB.snippet
          else c5WitA.snippet)] :=
  dedup_pair_merge c5WitA c5WitB (by decide) (by decide)

/-! ### Helper lemmas about the circuit breaker -/

theorem can_execute_fields (b : CircuitBreaker) (now : Nat) :
    (b.can_execute now).2.failure_count = b.failure_count ∧
    (b.can_execute now).2.last_failure_time = b.last_failure_time ∧
    (b.can_execute now).2.failure_threshold = b.failure_threshold ∧
    (b.can_execute now).2.timeout_seconds = b.timeout_seconds := by
  by_cases h : b.state = BState.opened
  · cases hl : b.last_failure_time with
    | none => simp [CircuitBreaker.can_execute, h, hl]
    | some t =>
      by_cases h2 : (now - t) % 86400 > b.timeout_seconds <;>
        simp [CircuitBreaker.can_execute, h, hl, h2]
  · simp [CircuitBreaker.can_execute, h]

theorem can_execute_closed (b : CircuitBreaker) (now : Nat)
    (h : b.state = BState.closed) : b.can_execute now = (true, b) := by
  simp [CircuitBreaker.can_execute, h]

theorem recordFailureIter_count (n now : Nat) (b : CircuitBreaker) :
    (recordFailureIter n now b).failure_count = b.failure_count + n := by
  induction n with
  | zero => rfl
  | succ n ih =>
    show ((recordFailureIter n now b).record_failure now).failure_count = _
    simp [CircuitBreaker.record_failure, ih]
    omega

theorem recordFailureIter_consts (n now : Nat) (b : CircuitBreaker) :
    (recordFailureIter n now b).failure_threshold = b.failure_threshold ∧
    (recordFailureIter n now b).timeout_seconds = b.timeout_seconds := by
  induction n with
  | zero => exact ⟨rfl, rfl⟩
  | succ n ih =>
    constructor
    · show ((recordFailureIter n now b).record_failure now).failure_threshold = _
      simp [CircuitBreaker.record_failure, ih.1]
    · show ((recordFailureIter n now b).record_failure now).timeout_seconds = _
      simp [CircuitBreaker.record_failure, ih.2]

theorem recordFailureIter_lft (n now : Nat) (b : CircuitBreaker) :
    (recordFailureIter (n + 1) now b).last_failure_time = some now := by
  show ((recordFailureIter n now b).record_failure now).last_failure_time = _
  simp [CircuitBreaker.record_failure]

theorem recordFailureIter_opened (n now : Nat) (b : CircuitBreaker)
    (h : b.failure_threshold ≤ b.failure_count + (n + 1)) :
    (recordFailureIter (n + 1) now b).state = BState.opened := by
  show ((recordFailureIter n now b).record_failure now).state = _
  have hc := recordFailureIter_count n now b
  have ht := (recordFailureIter_consts n now b).1
  simp only [CircuitBreaker.record_failure]
  rw [if_pos]
  rw [hc, ht]
  omega

/-! ### C3 -/

def c3Open : CircuitBreaker := ⟨5, 5, 60, some 0, BState.opened⟩

/-- C3, counterexample: an open breaker past its cooldown lets a first gate
check through (transitioning to half-open), but a second gate check while
the breaker is still half-open is let through as well, so more than one
trial call is allowed while HalfOpen; moreover, at 86461 elapsed seconds
(cooldown 60 long since elapsed) the gate refuses the call and the breaker
stays open, because the Python code compares the seconds component of the
timedelta, which wraps every 24 hours (86410 elapsed seconds give a seconds
component of 10). -/
theorem breaker_halfopen_trials_cex :
    (c3Open.can_execute 61).1 = true ∧
    (c3Open.can_execute 61).2.state = BState.halfOpen ∧
    ((c3Open.can_execute 61).2.can_execute 62).1 = true ∧
    ((c3Open.can_execute 61).2.can_execute 62).2.state = BState.halfOpen ∧
    (c3Open.can_execute 86410).1 = false ∧
    (c3Open.can_execute 86410).2.state = BState.opened := by decide

/-- C3 as amended: an Open breaker whose elapsed-seconds component (Python
`timedelta.seconds`, i.e. modulo 86400) strictly exceeds the cooldown
transitions to HalfOpen on the next gate check and that call is allowed;
while HalfOpen every gate check allows the call (the code does not limit the
trials to one); a successful trial makes the breaker Closed with
`failure_count = 0`, and subsequent calls pass. -/
theorem breaker_recovery_amended :
    (∀ (b : CircuitBreaker) (now t : Nat), b.state = BState.opened →
      b.last_failure_time = some t → (now - t) % 86400 > b.timeout_seconds →
      b.can_execute now = (true, { b with state := BState.halfOpen })) ∧
    (∀ (b : CircuitBreaker) (now : Nat), b.state = BState.halfOpen →
      b.can_execute now = (true, b)) ∧
    (∀ (b : CircuitBreaker) (now : Nat),
      b.record_success.state = BState.closed ∧
      b.record_success.failure_count = 0 ∧
      (b.record_success.can_execute now).1 = true) := by
  refine ⟨?_, ?_, ?_⟩
  · intro b now t h1 h2 h3
    simp [CircuitBreaker.can_execute, h1, h2, h3]
  · intro b now h
    simp [CircuitBreaker.can_execute, h]
  · intro b now
    simp [CircuitBreaker.record_success, CircuitBreaker.can_execute]

/-- C3 amended, witnessed on concrete breaker states. -/
theorem breaker_recovery_amended_witness :
    c3Open.can_execute 61 = (true, { c3Open with state := BState.halfOpen }) ∧
    ({ c3Open with state := BState.halfOpen }).can_execute 62 =
      (true, { c3Open with state := BState.halfOpen }) ∧
    (c3Open.record_success.state = BState.closed ∧
      c3Open.record_success.failure_count = 0 ∧
      (c3Open.record_success.can_execute 63).1 = true) :=
  ⟨breaker_recovery_amended.1 c3Open 61 0 rfl rfl (by decide),
    breaker_recovery_amended.2.1 _ 62 rfl,
    breaker_recovery_amended.2.2 c3Open 63⟩

/-! ### C4 -/

/-- C4: from a closed breaker with no recorded failures,
`failure_threshold` consecutive failures leave the breaker open, and a
subsequent `_search_tavily` call made while the cooldown (measured as the
Python elapsed-seconds component) has not elapsed returns the circuit-open
payload with status `disabled`, leaves the breaker untouched and performs
zero transport invocations. -/
theorem breaker_trip_short_circuits (b : CircuitBreaker) (now1 now2 : Nat)
    (importOk : Bool) (apiKey : Option String) (transport : TavilyTransport)
    (hclosed : b.state = BState.closed) (h0 : b.failure_count = 0)
    (hth : 1 ≤ b.failure_threshold)
    (helap : (now2 - now1) % 86400 ≤ b.timeout_seconds) :
    (recordFailureIter b.failure_threshold now1 b).state = BState.opened ∧
    _search_tavily (recordFailureIter b.failure_threshold now1 b) now2
        importOk apiKey transport =
      ⟨⟨[], "", some "Circuit breaker open - too many recent failures",
        ProviderStatus.disabled, none⟩,
        recordFailureIter b.failure_threshold now1 b, 0⟩ := by
  obtain ⟨n, hn⟩ : ∃ n, b.failure_threshold = n + 1 :=
    ⟨b.failure_threshold - 1, by omega⟩
  have hopen : (recordFailureIter b.failure_threshold now1 b).state = BState.opened := by
    rw [hn]
    exact recordFailureIter_opened n now1 b (by omega)
  have hlft : (recordFailureIter b.failure_threshold now1 b).last_failure_time =
      some now1 := by
    rw [hn]; exact recordFailureIter_lft n now1 b
  have hto : (recordFailureIter b.failure_threshold now1 b).timeout_seconds =
      b.timeout_seconds := (recordFailureIter_consts _ now1 b).2
  have hce : (recordFailureIter b.failure_threshold now1 b).can_execute now2 =
      (false, recordFailureIter b.failure_threshold now1 b) := by
    simp only [CircuitBreaker.can_execute, hopen, hlft, hto]
    rw [if_pos trivial, if_neg (by omega)]
  refine ⟨hopen, ?_⟩
  simp [_search_tavily, hce]

/-- C4, witnessed: the default breaker, five failures at t=100, a gated call
at t=130. -/
theorem breaker_trip_short_circuits_witness :
    (recordFailureIter CircuitBreaker.fresh.failure_threshold 100
      CircuitBreaker.fresh).state = BState.opened ∧
    _search_tavily (recordFailureIter CircuitBreaker.fresh.failure_threshold 100
        CircuitBreaker.fresh) 130 true (some "k") (TavilyTransport.ok [] "") =
      ⟨⟨[], "", some "Circuit breaker open - too many recent failures",
        ProviderStatus.disabled, none⟩,
        recordFailureIter CircuitBreaker.fresh.failure_threshold 100
          CircuitBreaker.fresh, 0⟩ :=
  breaker_trip_short_circuits CircuitBreaker.fresh 100 130 true (some "k")
    (TavilyTransport.ok [] "") rfl rfl (by decide) (by decide)

/-! ### C9 -/

theorem search_tavily_unconfig (b : CircuitBreaker) (now : Nat) (importOk : Bool)
    (apiKey : Option String) (transport : TavilyTransport)
    (h : importOk = false ∨ apiKey.getD "" = "") :
    (_search_tavily b now importOk apiKey transport).breaker = (b.can_execute now).2 ∧
    (_search_tavily b now importOk apiKey transport).transportCalls = 0 := by
  unfold _search_tavily
  by_cases hg : (b.can_execute now).1 = false
  · simp [hg]
  · rcases h with h | h
    · simp [hg, h]
    · by_cases hi : importOk = false
      · simp [hg, hi]
      · simp [hg, hi, h]

def c9Open : CircuitBreaker := ⟨5, 5, 60, some 0, BState.opened⟩

/-- C9, counterexample: a call that fails as not-configured (no API key) can
still change the breaker state: on an Open breaker past its cooldown the
gate check moves the state to half-open before the configuration check runs,
so the circuit-breaker state does not keep its prior value. -/
theorem unconfigured_changes_state_cex :
    (_search_tavily c9Open 61 true none (TavilyTransport.exn "net")).data.status =
      ProviderStatus.disabled ∧
    (_search_tavily c9Open 61 true none (TavilyTransport.exn "net")).data.error =
      some "TAVILY_API_KEY not set" ∧
    (_search_tavily c9Open 61 true none (TavilyTransport.exn "net")).breaker.state =
      BState.halfOpen ∧
    c9Open.state = BState.opened := by decide

/-- C9 as amended: an unconfigured or import-failed `_search_tavily` call
performs no transport invocation and records no failure, so
`failure_count` and `last_failure_time` keep their prior values; starting
from a Closed breaker the breaker is left completely unchanged by any
number of such calls (so an unconfigured provider never trips its breaker);
the only possible state change is the gate check moving an Open breaker
past its cooldown to HalfOpen. -/
theorem unconfigured_no_failure_recorded (b : CircuitBreaker) (now : Nat)
    (importOk : Bool) (apiKey : Option String) (transport : TavilyTransport)
    (n : Nat) (h : importOk = false ∨ apiKey.getD "" = "") :
    (_search_tavily b now importOk apiKey transport).transportCalls = 0 ∧
    (_search_tavily b now importOk apiKey transport).breaker.failure_count =
      b.failure_count ∧
    (_search_tavily b now importOk apiKey transport).breaker.last_failure_time =
      b.last_failure_time ∧
    (b.state = BState.closed →
      tavilyIterBreaker now importOk apiKey transport n b = b) := by
  rcases search_tavily_unconfig b now importOk apiKey transport h with ⟨hb, ht⟩
  refine ⟨ht, ?_, ?_, ?_⟩
  · rw [hb]; exact (can_execute_fields b now).1
  · rw [hb]; exact (can_execute_fields b now).2.1
  · intro hc
    induction n with
    | zero => rfl
    | succ n ih =>
      show (_search_tavily (tavilyIterBreaker now importOk apiKey transport n b)
        now importOk apiKey transport).breaker = b
      rw [ih]
      rw [(search_tavily_unconfig b now importOk apiKey transport h).1]
      rw [can_execute_closed b now hc]

def c9Closed : CircuitBreaker := ⟨2, 5, 60, some 7, BState.closed⟩

/-- C9 amended, witnessed on a closed breaker with three unconfigured calls. -/
theorem unconfigured_no_failure_recorded_witness :
    (_search_tavily c9Closed 10 true none (TavilyTransport.exn "net")).transportCalls = 0 ∧
    (_search_tavily c9Closed 10 true none (TavilyTransport.exn "net")).breaker.failure_count =
      c9Closed.failure_count ∧
    (_search_tavily c9Closed 10 true none (TavilyTransport.exn "net")).breaker.last_failure_time =
      c9Closed.last_failure_time ∧
    tavilyIterBreaker 10 true none (TavilyTransport.exn "net") 3 c9Closed = c9Closed :=
  ⟨(unconfigured_no_failure_recorded c9Closed 10 true none (TavilyTransport.exn "net") 3
      (Or.inr rfl)).1,
    (unconfigured_no_failure_recorded c9Closed 10 true none (TavilyTransport.exn "net") 3
      (Or.inr rfl)).2.1,
    (unconfigured_no_failure_recorded c9Closed 10 true none (TavilyTransport.exn "net") 3
      (Or.inr rfl)).2.2.1,
    (unconfigured_no_failure_recorded c9Closed 10 true none (TavilyTransport.exn "net") 3
      (Or.inr rfl)).2.2.2 rfl⟩

/-! ### C8 -/

theorem collectStep_le (T t d : Nat) : collectStep T t d ≤ t + T := by
  unfold collectStep
  split <;> omega

theorem collectFinish_aux (T : Nat) (ds : List Nat) :
    ∀ t, List.foldl (collectStep T) t ds ≤ t + ds.length * T := by
  induction ds with
  | nil => intro t; simp
  | cons d rest ih =>
    intro t
    calc List.foldl (collectStep T) t (d :: rest)
        = List.foldl (collectStep T) (collectStep T t d) rest := rfl
      _ ≤ collectStep T t d + rest.length * T := ih _
      _ ≤ (t + T) + rest.length * T := by
          have := collectStep_le T t d; omega
      _ ≤ t + (d :: rest).length * T := by
          simp [List.length_cons]; ring_nf; omega

/-- C8, counterexample: with the per-provider timeout 15s and both worker
durations 100s (both hang), the sequential collection loop settles at 30s,
twice the per-provider timeout, whereas the maximum over the per-provider
latencies (each bounded by the 15s timeout) is 15s. -/
theorem collect_latency_cex :
    collectFinish 15 [100, 100] = 30 ∧
    max (min 100 15) (min 100 15) = 15 ∧
    (30 : Nat) ≠ 15 := by decide

/-- C8 as amended: provider workers are dispatched in parallel and a
timed-out wait yields the synthesized timeout payload for that provider
only (one flag per provider), but the results are collected sequentially
and each `future.result` wait gets a fresh full timeout, so the overall
collection latency is only bounded by the number of providers times the
per-provider timeout (the bound is reached when all providers hang), not by
the maximum per-provider latency. -/
theorem collect_latency_amended :
    (∀ (T : Nat) (ds : List Nat), collectFinish T ds ≤ ds.length * T) ∧
    (∀ (T t : Nat) (ds : List Nat), (collectTimedOut T t ds).length = ds.length) ∧
    collectFinish 15 [100, 100] = 2 * 15 := by
  refine ⟨?_, ?_, by decide⟩
  · intro T ds
    have := collectFinish_aux T ds 0
    simpa [collectFinish] using this
  · intro T t ds
    induction ds generalizing t with
    | nil => rfl
    | cons d rest ih =>
      unfold collectTimedOut
      split <;> simp [ih]

/-! ### C2 -/

/-- C2: if both providers are enabled and both settled outcomes are
failures (any non-ok classification: failed, timeout, or disabled), the
orchestrator still returns a well-formed response: empty results,
`total_found = 0`, `cached = false`, and one provider entry per provider
carrying its failing status, zero result count and its error text.  The
embedding is total, so no exception channel exists on this path. -/
theorem search_dual_total_outage (now : Nat) (q : String) (nr : Int)
    (st : SearchType) (cfg : SearchConfigM) (tD dD : ProviderData)
    (ht : cfg.enable_tavily = true) (hd : cfg.enable_duckduckgo = true)
    (h1 : tD.status ≠ ProviderStatus.ok) (h2 : dD.status ≠ ProviderStatus.ok) :
    (search_dual now [] q nr st cfg none tD dD).response.results = [] ∧
    (search_dual now [] q nr st cfg none tD dD).response.total_found = 0 ∧
    (search_dual now [] q nr st cfg none tD dD).response.providers =
      [("tavily", ⟨tD.status, 0, tD.error, none⟩),
        ("duckduckgo", ⟨dD.status, 0, dD.error, none⟩)] ∧
    (search_dual now [] q nr st cfg none tD dD).response.cached = false := by
  cases hc : cfg.enable_cache <;>
    simp [search_dual, searchCore, cacheGet, cacheFind, hc, ht, hd,
      processOutcomes, processOne, h1, h2, _deduplicate_results, dedupGo,
      _rank_results]

def c2TavFail : ProviderData :=
  ⟨[], "", some "TAVILY_API_KEY not set", ProviderStatus.disabled, none⟩

def c2DdgFail : ProviderData :=
  ⟨[], "", some "Timeout after 15s", ProviderStatus.timeout, none⟩

/-- C2, witnessed: one disabled provider and one timed-out provider. -/
theorem search_dual_total_outage_witness :
    (search_dual 50 [] "climate policy" 5 SearchType.general defaultConfig none
      c2TavFail c2DdgFail).response.results = [] ∧
    (search_dual 50 [] "climate policy" 5 SearchType.general defaultConfig none
      c2TavFail c2DdgFail).response.total_found = 0 ∧
    (search_dual 50 [] "climate policy" 5 SearchType.general defaultConfig none
      c2TavFail c2DdgFail).response.providers =
      [("tavily", ⟨c2TavFail.status, 0, c2TavFail.error, none⟩),
        ("duckduckgo", ⟨c2DdgFail.status, 0, c2DdgFail.error, none⟩)] ∧
    (search_dual 50 [] "climate policy" 5 SearchType.general defaultConfig none
      c2TavFail c2DdgFail).response.cached = false :=
  search_dual_total_outage 50 "climate policy" 5 SearchType.general defaultConfig
    c2TavFail c2DdgFail rfl rfl (by decide) (by decide)

/-! ### C6 -/

def c6Fail : ProviderData := ⟨[], "", some "boom", ProviderStatus.failed, none⟩

/-- C6, counterexample: `search_dual` contains no validation of
`num_results`; a call with `num_results = 0` dispatches both enabled
providers (2 workers, not 0) and returns a structured response, so no
validation error is reported before dispatch. -/
theorem no_validation_cex :
    (search_dual 0 [] "q" 0 SearchType.general defaultConfig (some false)
      c6Fail c6Fail).providerCalls = 2 ∧
    (search_dual 0 [] "q" 0 SearchType.general defaultConfig (some false)
      c6Fail c6Fail).response.query = "q" := by decide

/-- C6 as amended: `search_dual` performs no validation of `num_results`
whatsoever; for any `num_results ≤ 0` the call proceeds to dispatch every
enabled provider and returns the normal structured response (the embedding
has no raise channel on this path; the only exception the source can raise
before dispatch is the `SearchType` conversion of an invalid kind string,
which is unrelated to `num_results`). -/
theorem no_validation_dispatch (now : Nat) (q : String) (nr : Int)
    (st : SearchType) (cfg : SearchConfigM) (tD dD : ProviderData)
    (ht : cfg.enable_tavily = true) (hd : cfg.enable_duckduckgo = true)
    (hnr : nr ≤ 0) :
    (search_dual now [] q nr st cfg (some false) tD dD).providerCalls = 2 ∧
    (search_dual now [] q nr st cfg (some false) tD dD).response.query = q ∧
    (search_dual now [] q nr st cfg (some false) tD dD).response.search_type =
      st.val := by
  refine ⟨?_, ?_, ?_⟩ <;>
    simp [search_dual, searchCore, ht, hd]

/-- C6 amended, witnessed at `num_results = -3`. -/
theorem no_validation_dispatch_witness :
    (search_dual 7 [] "q" (-3) SearchType.news defaultConfig (some false)
      c6Fail c6Fail).providerCalls = 2 ∧
    (search_dual 7 [] "q" (-3) SearchType.news defaultConfig (some false)
      c6Fail c6Fail).response.query = "q" ∧
    (search_dual 7 [] "q" (-3) SearchType.news defaultConfig (some false)
      c6Fail c6Fail).response.search_type = SearchType.news.val :=
  no_validation_dispatch 7 "q" (-3) SearchType.news defaultConfig c6Fail c6Fail
    rfl rfl (by decide)

/-! ### C7 -/

theorem searchCore_cacheOut (now : Nat) (q : String) (st : SearchType)
    (cfg : SearchConfigM) (sc : Bool) (key : String)
    (c1 : List (String × CacheEntryM)) (tD dD : ProviderData) :
    (searchCore now q st cfg sc key c1 tD dD).cacheOut =
      if sc ∧ (searchCore now q st cfg sc key c1 tD dD).response.results ≠ [] then
        cacheSet now cfg.cache_ttl_seconds c1 key
          (searchCore now q st cfg sc key c1 tD dD).response
      else c1 := by
  unfold searchCore
  by_cases hp : ((if cfg.enable_tavily then [("tavily", tD)] else []) ++
      (if cfg.enable_duckduckgo then [("duckduckgo", dD)] else [])) = []
  · simp [hp]
  · simp [hp]

theorem searchCore_cached_false (now : Nat) (q : String) (st : SearchType)
    (cfg : SearchConfigM) (sc : Bool) (key : String)
    (c1 : List (String × CacheEntryM)) (tD dD : ProviderData) :
    (searchCore now q st cfg sc key c1 tD dD).response.cached = false := by
  unfold searchCore
  by_cases hp : ((if cfg.enable_tavily then [("tavily", tD)] else []) ++
      (if cfg.enable_duckduckgo then [("duckduckgo", dD)] else [])) = []
  · simp [hp]
  · simp [hp]

/-- C7: with caching enabled, a first call on an empty cache whose final
result list is non-empty stores its response; a second call with the same
`(query, kind, num_results)` made before the TTL expires dispatches zero
provider workers and returns the stored response with `cached = true` and
in particular identical `results`, whatever the second call's provider
outcomes would have been. -/
theorem cache_idempotent (t0 t1 : Nat) (q : String) (nr : Int)
    (st : SearchType) (cfg : SearchConfigM) (tD dD tD2 dD2 : ProviderData)
    (hc : cfg.enable_cache = true)
    (hne : (search_dual t0 [] q nr st cfg none tD dD).response.results ≠ [])
    (httl : t1 < t0 + cfg.cache_ttl_seconds) :
    (search_dual t1 (search_dual t0 [] q nr st cfg none tD dD).cacheOut
      q nr st cfg none tD2 dD2).providerCalls = 0 ∧
    (search_dual t1 (search_dual t0 [] q nr st cfg none tD dD).cacheOut
      q nr st cfg none tD2 dD2).response =
      { (search_dual t0 [] q nr st cfg none tD dD).response with cached := true } := by
  have e1 : search_dual t0 [] q nr st cfg none tD dD =
      searchCore t0 q st cfg true (makeKey q st.val nr) [] tD dD := by
    simp [search_dual, hc, cacheGet, cacheFind]
  rw [e1] at hne ⊢
  have hco : (searchCore t0 q st cfg true (makeKey q st.val nr) [] tD dD).cacheOut =
      [(makeKey q st.val nr,
        ⟨(searchCore t0 q st cfg true (makeKey q st.val nr) [] tD dD).response,
          t0 + cfg.cache_ttl_seconds⟩)] := by
    rw [searchCore_cacheOut]
    rw [if_pos ⟨rfl, hne⟩]
    rfl
  rw [hco]
  have hfind : cacheFind
      [(makeKey q st.val nr,
        ⟨(searchCore t0 q st cfg true (makeKey q st.val nr) [] tD dD).response,
          t0 + cfg.cache_ttl_seconds⟩)] (makeKey q st.val nr) =
      some ⟨(searchCore t0 q st cfg true (makeKey q st.val nr) [] tD dD).response,
          t0 + cfg.cache_ttl_seconds⟩ := by
    unfold cacheFind
    rw [if_pos rfl]
  constructor <;>
    simp [search_dual, hc, cacheGet, hfind, httl]

def c7Res : SearchResult :=
  ⟨"T", "https://a.com/x", "snip", 1, "tavily", none, 1⟩

def c7TavOk : ProviderData :=
  ⟨[c7Res], "ans", none, ProviderStatus.ok, some 0⟩

def c7DdgFail : ProviderData :=
  ⟨[], "", some "boom", ProviderStatus.failed, none⟩

/-- C7, witnessed: a concrete first call with one successful provider, then
the same call again 100s later (TTL 300s). -/
theorem cache_idempotent_witness :
    (search_dual 100 (search_dual 0 [] "q" 5 SearchType.general defaultConfig none
        c7TavOk c7DdgFail).cacheOut "q" 5 SearchType.general defaultConfig none
        c7TavOk c7DdgFail).providerCalls = 0 ∧
    (search_dual 100 (search_dual 0 [] "q" 5 SearchType.general defaultConfig none
        c7TavOk c7DdgFail).cacheOut "q" 5 SearchType.general defaultConfig none
        c7TavOk c7DdgFail).response =
      { (search_dual 0 [] "q" 5 SearchType.general defaultConfig none
          c7TavOk c7DdgFail).response with cached := true } :=
  cache_idempotent 0 100 "q" 5 SearchType.general defaultConfig c7TavOk c7DdgFail
    c7TavOk c7DdgFail rfl (by decide) (by decide)
